import Mathlib

/-!
# Verification of django-gtf (fusionbox/django-gtf)

Shallow embedding of the repository's template-finder middleware
(`gtf/middleware.py`, legacy `middleware.py`) and REST view helpers
(`views/rest.py`), with theorems settling the specification's claims.

Python strings are Lean `String`s; Python exceptions become explicit
error values (`Except`); the host framework's template renderer is an
oracle parameter `render : String → Except Exc HttpResponse`.
-/

/-! ## Python string primitives used by the source -/

/-- Python `s.lstrip(c)` for a single strip character: drop leading `c`s. -/
def pyLstrip (c : Char) (s : String) : String :=
  String.mk (s.data.dropWhile (fun d => d = c))

/-- Python `s.rstrip(c)` for a single strip character: drop trailing `c`s. -/
def pyRstrip (c : Char) (s : String) : String :=
  String.mk (s.data.reverse.dropWhile (fun d => d = c)).reverse

/-- Python `s.strip(c)`: drop leading and trailing `c`s. -/
def pyStrip (c : Char) (s : String) : String :=
  pyRstrip c (pyLstrip c s)

/-- Python `s.endswith(t)` (true for the empty suffix, as in Python). -/
def pyEndswith (s t : String) : Bool :=
  List.isSuffixOf t.data s.data

/-! ## HTTP data model

Requests and responses are opaque framework structures; the source only
reads a request's `path`, reads/sets one marker attribute, reads a
response's `status_code`, and builds responses from a status code, a
body and headers. -/

/-- The slice of a Django `HttpRequest` this code touches: the URL path and
the `_generic_template_finder_middleware_view_found` marker attribute
(absent ⇒ `getattr(..., False)` yields `false`). -/
structure Request where
  path : String
  view_found : Bool := false
deriving DecidableEq, Repr

/-- The slice of a Django `HttpResponse` this code touches: status code,
body and headers (an insertion-ordered association list). -/
structure HttpResponse where
  status_code : Nat
  body : String
  headers : List (String × String) := []
deriving DecidableEq, Repr

/-- `HttpResponsePermanentRedirect(path)`: a 301 response whose
`Location` header is `path`. -/
def HttpResponsePermanentRedirect (path : String) : HttpResponse :=
  { status_code := 301, body := "", headers := [("Location", path)] }

/-- Exceptions that flow through `gtf/middleware.py`:
`TemplateDoesNotExist`, `OSError` (with its `errno`),
`UnicodeEncodeError`, `Http404` (whose message is built from the tuple
of attempted template names), and any other exception kind. -/
inductive Exc where
  | templateDoesNotExist : Exc
  | osError (errno : Int) : Exc
  | unicodeEncodeError : Exc
  | http404 (attempted : List String) : Exc
  | other (name : String) : Exc
deriving DecidableEq, Repr

/-- Linux `errno.EISDIR`. -/
def EISDIR : Int := 21

/-! ## `gtf/middleware.py`: generic_template_finder_view -/

/-- The slash normalization at the top of `generic_template_finder_view`:
`path = base_path + request.path; if not path.endswith('/'): path += '/'`. -/
def normSlash (base_path request_path : String) : String :=
  let path := base_path ++ request_path
  if pyEndswith path "/" then path else path ++ "/"

/-- The `possibilities` tuple of `generic_template_finder_view`:
`(path.strip('/') + '.html', path.lstrip('/') + 'index.html', path.strip('/'))`
where `path` is the slash-normalized `base_path + request.path`. -/
def candidates (base_path request_path : String) : List String :=
  let path := normSlash base_path request_path
  [pyStrip '/' path ++ ".html", pyLstrip '/' path ++ "index.html", pyStrip '/' path]

/-- The `for t in possibilities` loop of `generic_template_finder_view`:
probe each candidate with `render`; `TemplateDoesNotExist` and
`OSError` with `errno == EISDIR` continue to the next candidate, any
other `OSError` re-raises, other exceptions propagate; on a successful
render return a permanent redirect to `path` when the candidate ends in
`.html`, `path` no longer ends with `request.path` (a slash was
appended) and `settings.APPEND_SLASH` holds, else return the rendered
response. `none` means the loop exhausted all candidates. -/
def tryCandidates (render : String → Except Exc HttpResponse) (append_slash : Bool)
    (request_path path : String) : List String → Option (Except Exc HttpResponse)
  | [] => none
  | t :: rest =>
    match render t with
    | Except.ok response =>
      if pyEndswith t ".html" && !(pyEndswith path request_path) && append_slash then
        some (Except.ok (HttpResponsePermanentRedirect path))
      else
        some (Except.ok response)
    | Except.error Exc.templateDoesNotExist =>
      tryCandidates render append_slash request_path path rest
    | Except.error (Exc.osError e) =>
      if e = EISDIR then tryCandidates render append_slash request_path path rest
      else some (Except.error (Exc.osError e))
    | Except.error e => some (Except.error e)

/-- `generic_template_finder_view(request, base_path, extra_context)` from
`gtf/middleware.py`, with the host's template renderer and
`settings.APPEND_SLASH` as oracle parameters (the `extra_context` dict
is data passed through to the renderer and is absorbed into the
oracle). Exhausting all candidates raises
`Http404('Template not found in any of %r' % (possibilities,))`. -/
def generic_template_finder_view (render : String → Except Exc HttpResponse)
    (append_slash : Bool) (base_path request_path : String) : Except Exc HttpResponse :=
  (tryCandidates render append_slash request_path (normSlash base_path request_path)
      (candidates base_path request_path)).getD
    (Except.error (Exc.http404 (candidates base_path request_path)))

/-! ## `gtf/middleware.py`: GenericTemplateFinderMiddleware -/

/-- The body of the `try` block in
`GenericTemplateFinderMiddleware.process_response` (the `set_urlconf`
bracketing is ambient framework state with no observable effect on the
returned response and is not modelled): call the finder view with empty
`base_path`; `Http404` and `UnicodeEncodeError` are caught and the
original response returned; other exceptions propagate. -/
def attempt_fallback (render : String → Except Exc HttpResponse) (append_slash : Bool)
    (request : Request) (response : HttpResponse) : Except Exc HttpResponse :=
  match generic_template_finder_view render append_slash "" request.path with
  | Except.ok r => Except.ok r
  | Except.error (Exc.http404 _) => Except.ok response
  | Except.error Exc.unicodeEncodeError => Except.ok response
  | Except.error e => Except.error e

/-- `GenericTemplateFinderMiddleware.process_response`: attempt the
fallback only when the response is a 404 and the
`_generic_template_finder_middleware_view_found` marker is unset;
otherwise return the response unchanged. -/
def process_response (render : String → Except Exc HttpResponse) (append_slash : Bool)
    (request : Request) (response : HttpResponse) : Except Exc HttpResponse :=
  if response.status_code = 404 && !request.view_found then
    attempt_fallback render append_slash request response
  else
    Except.ok response

/-- `GenericTemplateFinderMiddleware.process_view`: sets the
`_generic_template_finder_middleware_view_found` marker on the request
(the unused `view_func`/`view_args`/`view_kwargs` parameters are
dropped; attribute mutation is modelled as returning the updated
request). -/
def process_view (request : Request) : Request :=
  { request with view_found := true }

/-! ## Legacy `middleware.py`: generic_template_finder_view -/

/-- The `possibilities` tuple of the legacy `generic_template_finder_view`
in `middleware.py`: `path = request.path`, slash-normalized the same
way, then the same three expressions. -/
def legacy_candidates (request_path : String) : List String :=
  let path := if pyEndswith request_path "/" then request_path else request_path ++ "/"
  [pyStrip '/' path ++ ".html", pyLstrip '/' path ++ "index.html", pyStrip '/' path]

/-! ## `views/rest.py`: Python values and JSON serialization

The payloads flowing through `JsonResponseMixin.serialize` are Python
objects: `None`, strings, ints, `Decimal`s, lists, string-keyed dicts,
and objects exposing a `to_json` method. `PyVal.decimal v` carries the
decimal's `str()` form; `PyVal.withToJson j` is an object whose
`to_json()` returns `j`. -/

inductive PyVal where
  | none : PyVal
  | str (s : String) : PyVal
  | int (n : Int) : PyVal
  | decimal (value : String) : PyVal
  | list (xs : List PyVal) : PyVal
  | dict (kvs : List (String × PyVal)) : PyVal
  | withToJson (j : PyVal) : PyVal

/-- `more_json(obj)` from `views/rest.py`: `str(obj)` for a `Decimal`,
`obj.to_json()` for an object with that attribute, otherwise
`TypeError`. -/
def more_json : PyVal → Except String PyVal
  | PyVal.decimal v => Except.ok (PyVal.str v)
  | PyVal.withToJson j => Except.ok j
  | _ => Except.error "TypeError: not JSON serializable"

/-- Lowercase hex digit, as used by `json.dumps`'s `\\uXXXX` escapes. -/
def hexDigit (n : Nat) : Char :=
  if n < 10 then Char.ofNat (48 + n) else Char.ofNat (87 + n)

/-- Four lowercase hex digits. -/
def hex4 (n : Nat) : String :=
  String.mk [hexDigit (n / 4096 % 16), hexDigit (n / 256 % 16), hexDigit (n / 16 % 16),
    hexDigit (n % 16)]

/-- How `json.dumps` (default `ensure_ascii=True`) escapes one character
of a string: short escapes for quote, backslash and common controls,
printable ASCII verbatim, everything else as `\\uXXXX` (surrogate pairs
beyond the BMP). -/
def jsonEscapeChar (c : Char) : String :=
  if c = Char.ofNat 34 then "\\\""
  else if c = Char.ofNat 92 then "\\\\"
  else if c = Char.ofNat 10 then "\\n"
  else if c = Char.ofNat 13 then "\\r"
  else if c = Char.ofNat 9 then "\\t"
  else if c = Char.ofNat 8 then "\\b"
  else if c = Char.ofNat 12 then "\\f"
  else if 32 ≤ c.toNat && c.toNat ≤ 126 then String.mk [c]
  else if c.toNat < 65536 then "\\u" ++ hex4 c.toNat
  else "\\u" ++ hex4 (55296 + (c.toNat - 65536) / 1024) ++
    "\\u" ++ hex4 (56320 + (c.toNat - 65536) % 1024)

/-- `json.dumps` of a Python string. -/
def jsonQuote (s : String) : String :=
  "\"" ++ String.join (s.data.map jsonEscapeChar) ++ "\""

/-! `json.dumps(obj, default=more_json)` with the stdlib's default
separators (`", "` and `": "`). On a `Decimal` or an object with
`to_json`, `json.dumps` calls `more_json` and serializes its return
value (the `decimal` and `withToJson` equations below are exactly that,
unfolded once — see `jsonDumps_decimal_via_more_json` and
`jsonDumps_withToJson_via_more_json`); on any other non-native object it
would raise `more_json`'s `TypeError`, which cannot occur for `PyVal`
since every constructor is either native or handled by `more_json`. -/

mutual

def jsonDumps : PyVal → String
  | PyVal.none => "null"
  | PyVal.str s => jsonQuote s
  | PyVal.int n => toString n
  | PyVal.decimal v => jsonQuote v
  | PyVal.withToJson j => jsonDumps j
  | PyVal.list xs => "[" ++ String.intercalate ", " (jsonDumpsList xs) ++ "]"
  | PyVal.dict kvs => "\x7b" ++ String.intercalate ", " (jsonDumpsDict kvs) ++ "\x7d"

def jsonDumpsList : List PyVal → List String
  | [] => []
  | x :: xs => jsonDumps x :: jsonDumpsList xs

def jsonDumpsDict : List (String × PyVal) → List String
  | [] => []
  | (k, v) :: kvs => (jsonQuote k ++ ": " ++ jsonDumps v) :: jsonDumpsDict kvs

end

/-! ## `views/rest.py`: JsonResponseMixin and RestView -/

/-- Python `hasattr(obj, 'to_json')` over `PyVal`. -/
def hasToJson : PyVal → Bool
  | PyVal.withToJson _ => true
  | _ => false

/-- Python `obj.to_json()` for objects that have it (identity otherwise;
only applied under a `hasToJson` guard). -/
def callToJson : PyVal → PyVal
  | PyVal.withToJson j => j
  | v => v

/-- Python iteration `for i in obj`: lists yield their elements, strings
their characters (as 1-character strings), dicts their keys; `None`,
numbers, `Decimal`s and plain objects raise `TypeError` (`none` here). -/
def pyIter : PyVal → Option (List PyVal)
  | PyVal.list xs => some xs
  | PyVal.str s => some (s.data.map (fun c => PyVal.str (String.mk [c])))
  | PyVal.dict kvs => some (kvs.map (fun kv => PyVal.str kv.fst))
  | _ => none

/-- First `try` of `JsonResponseMixin.serialize`:
`obj = obj.to_json()`, with `AttributeError` (no such attribute)
passed over. -/
def serialize_step1 : PyVal → PyVal
  | PyVal.withToJson j => j
  | obj => obj

/-- Second `try` of `JsonResponseMixin.serialize`:
`obj = [i.to_json() for i in obj]`. `TypeError` (not iterable) and
`AttributeError` (some element lacks `to_json`) abort the comprehension
before the assignment, leaving `obj` unchanged. -/
def serialize_step2 (obj : PyVal) : PyVal :=
  match pyIter obj with
  | Option.none => obj
  | some items =>
    if items.all hasToJson then PyVal.list (items.map callToJson) else obj

/-- `JsonResponseMixin.serialize(obj)`: the two `try` blocks, then
`json.dumps(obj, default=more_json)`. -/
def serialize (obj : PyVal) : String :=
  jsonDumps (serialize_step2 (serialize_step1 obj))

/-- The exceptions `RestView.dispatch` distinguishes: Django's
`ValidationError` (carrying its `message_dict`, a mapping from field
name to list of messages), `Http404`, `PermissionDenied` and the
builtin `ValueError` (each carrying their `str()` form), and any other
exception kind, which no `except` clause matches. -/
inductive RestExc where
  | validationError (message_dict : List (String × List String)) : RestExc
  | http404 : RestExc
  | permissionDenied (msg : String) : RestExc
  | valueError (msg : String) : RestExc
  | other (name : String) : RestExc
deriving DecidableEq, Repr

/-- A `ValidationError.message_dict` as the Python dict passed to
`serialize`. -/
def messageDictVal (md : List (String × List String)) : PyVal :=
  PyVal.dict (md.map (fun kv => (kv.fst, PyVal.list (kv.snd.map PyVal.str))))

/-- `JsonResponseMixin.render_to_response(obj, **response_kwargs)`:
`HttpResponse(self.serialize(obj), content_type='application/json', ...)`
with the given status (Django's default 200 when none is passed). -/
def render_to_response (obj : PyVal) (status : Nat) : HttpResponse :=
  { status_code := status, body := serialize obj,
    headers := [("Content-Type", "application/json")] }

/-- `RestView.dispatch`: run `self.auth(...)` then
`super().dispatch(...)` (the per-method handler — not invoked when
`auth` raises), and translate `ValidationError`/`Http404`/
`PermissionDenied`/`ValueError` into 409/404/403/400 JSON responses;
any other exception propagates. The two calls are oracle parameters:
`auth` either succeeds or raises, `handler` either returns a response
or raises. -/
def RestView.dispatch (auth : Except RestExc Unit) (handler : Except RestExc HttpResponse) :
    Except RestExc HttpResponse :=
  match auth.bind (fun _ => handler) with
  | Except.ok r => Except.ok r
  | Except.error (RestExc.validationError md) =>
    Except.ok (render_to_response (messageDictVal md) 409)
  | Except.error RestExc.http404 => Except.ok (render_to_response PyVal.none 404)
  | Except.error (RestExc.permissionDenied m) =>
    Except.ok (render_to_response (PyVal.str m) 403)
  | Except.error (RestExc.valueError m) => Except.ok (render_to_response (PyVal.str m) 400)
  | Except.error (RestExc.other n) => Except.error (RestExc.other n)

/-- Django's `View.http_method_names` (the list `RestView.options`
iterates over). -/
def http_method_names : List String :=
  ["get", "post", "put", "patch", "delete", "head", "options", "trace"]

/-- Python `s.upper()` (the method names are ASCII). -/
def pyUpper (s : String) : String :=
  String.mk (s.data.map Char.toUpper)

/-- `RestView.options(request, ...)`: collect `method.upper()` for every
name in `http_method_names` the instance has an attribute for, render
`None`, and set the `Allow` header to the comma-joined list.
`hasMethod` abstracts Python's `hasattr(self, method)`. -/
def RestView.options (names : List String) (hasMethod : String → Bool) : HttpResponse :=
  let allow := (names.filter hasMethod).map pyUpper
  let r := render_to_response PyVal.none 200
  { r with headers := r.headers ++ [("Allow", String.intercalate "," allow)] }

/-- `hasattr(self, method)` for an instance of a `RestView` subclass that
defines exactly `subclass_methods` among the HTTP method handlers:
`RestView` itself always defines `options` (as does Django's base
`View`), so that attribute is always present. -/
def restViewHasMethod (subclass_methods : List String) (m : String) : Bool :=
  subclass_methods.contains m || m = "options"

/-! ## Concrete instances used by witnesses and counterexamples -/

/-- A renderer for which only the template `foo/index.html` exists;
every other name raises `TemplateDoesNotExist`. -/
def renderOnlyFooIndex : String → Except Exc HttpResponse := fun t =>
  if t = "foo/index.html" then Except.ok { status_code := 200, body := "INDEX" }
  else Except.error Exc.templateDoesNotExist

/-- A renderer r for which concrete witness instantiations succeed on
`foo.html`. -/
def renderOnlyFooHtml : String → Except Exc HttpResponse := fun t =>
  if t = "foo.html" then Except.ok { status_code := 200, body := "FOO" }
  else Except.error Exc.templateDoesNotExist

/-- A renderer that always raises `TemplateDoesNotExist`. -/
def renderAllTDNE : String → Except Exc HttpResponse := fun _ =>
  Except.error Exc.templateDoesNotExist

/-- A renderer that always raises `IsADirectoryError` (an `OSError` with
`errno == EISDIR`). -/
def renderAllEISDIR : String → Except Exc HttpResponse := fun _ =>
  Except.error (Exc.osError EISDIR)

/-- A renderer that always raises an `OSError` with `errno == ENOENT`
(2), i.e. not `EISDIR`. -/
def renderAllENOENT : String → Except Exc HttpResponse := fun _ =>
  Except.error (Exc.osError 2)

/-- A 404 response as produced by the host's URL resolver. -/
def resp404 : HttpResponse := { status_code := 404, body := "not found" }

/-! Decimal replacement: the specification device for "every `Decimal`
is serialized as its decimal string": replace each `Decimal` anywhere
in a payload by the plain string of its decimal digits. -/

mutual

def replaceDec : PyVal → PyVal
  | PyVal.none => PyVal.none
  | PyVal.str s => PyVal.str s
  | PyVal.int n => PyVal.int n
  | PyVal.decimal v => PyVal.str v
  | PyVal.withToJson j => PyVal.withToJson (replaceDec j)
  | PyVal.list xs => PyVal.list (replaceDecList xs)
  | PyVal.dict kvs => PyVal.dict (replaceDecDict kvs)

def replaceDecList : List PyVal → List PyVal
  | [] => []
  | x :: xs => replaceDec x :: replaceDecList xs

def replaceDecDict : List (String × PyVal) → List (String × PyVal)
  | [] => []
  | (k, v) :: kvs => (k, replaceDec v) :: replaceDecDict kvs

end

/-! ## Helper lemmas -/

/-- The `decimal` equation of `jsonDumps` is `json.dumps` deferring to
`more_json` (which returns `str(obj)`) and serializing the result. -/
theorem jsonDumps_decimal_via_more_json (v : String) :
    more_json (PyVal.decimal v) = Except.ok (PyVal.str v) ∧
      jsonDumps (PyVal.decimal v) = jsonDumps (PyVal.str v) := ⟨rfl, rfl⟩

/-- The `withToJson` equation of `jsonDumps` is `json.dumps` deferring to
`more_json` (which returns `obj.to_json()`) and serializing the result. -/
theorem jsonDumps_withToJson_via_more_json (j : PyVal) :
    more_json (PyVal.withToJson j) = Except.ok j ∧
      jsonDumps (PyVal.withToJson j) = jsonDumps j := by
  exact ⟨rfl, by rw [jsonDumps]⟩

/-- When `render t` succeeds, the probe loop stops at `t`: it yields the
permanent redirect to `path` when `t` ends in `.html`, a slash was
appended and `APPEND_SLASH` holds, else the rendered response. -/
theorem tryCandidates_cons_ok (render : String → Except Exc HttpResponse)
    (append_slash : Bool) (request_path path t : String) (rest : List String)
    (r : HttpResponse) (h : render t = Except.ok r) :
    tryCandidates render append_slash request_path path (t :: rest) =
      some (if pyEndswith t ".html" && !(pyEndswith path request_path) && append_slash then
          Except.ok (HttpResponsePermanentRedirect path)
        else Except.ok r) := by
  rw [tryCandidates, h]
  by_cases hc : (pyEndswith t ".html" && !(pyEndswith path request_path) && append_slash) = true
  · simp [hc]
  · simp only [Bool.not_eq_true] at hc
    simp [hc]

/-- `TemplateDoesNotExist` on the head candidate continues with the rest. -/
theorem tryCandidates_cons_tdne (render : String → Except Exc HttpResponse)
    (append_slash : Bool) (request_path path t : String) (rest : List String)
    (h : render t = Except.error Exc.templateDoesNotExist) :
    tryCandidates render append_slash request_path path (t :: rest) =
      tryCandidates render append_slash request_path path rest := by
  rw [tryCandidates, h]

/-- `OSError` with `errno == EISDIR` on the head candidate continues with
the rest. -/
theorem tryCandidates_cons_eisdir (render : String → Except Exc HttpResponse)
    (append_slash : Bool) (request_path path t : String) (rest : List String)
    (h : render t = Except.error (Exc.osError EISDIR)) :
    tryCandidates render append_slash request_path path (t :: rest) =
      tryCandidates render append_slash request_path path rest := by
  rw [tryCandidates, h]
  simp

/-- Exhaustion: when every candidate fails with `TemplateDoesNotExist` or
`EISDIR`, the loop falls through. -/
theorem tryCandidates_exhaust (render : String → Except Exc HttpResponse)
    (append_slash : Bool) (request_path path : String) (l : List String)
    (h : ∀ t ∈ l, render t = Except.error Exc.templateDoesNotExist ∨
        render t = Except.error (Exc.osError EISDIR)) :
    tryCandidates render append_slash request_path path l = Option.none := by
  induction l with
  | nil => rfl
  | cons t rest ih =>
    have ht := h t (List.mem_cons_self t rest)
    have hrest : tryCandidates render append_slash request_path path rest = Option.none :=
      ih (fun u hu => h u (List.mem_cons_of_mem t hu))
    cases ht with
    | inl htd => rw [tryCandidates_cons_tdne render append_slash request_path path t rest htd, hrest]
    | inr his => rw [tryCandidates_cons_eisdir render append_slash request_path path t rest his, hrest]

/-! ## Claim theorems -/

/-- C1: for a request with path `/foo` (no trailing slash) and empty
`base_path`, `generic_template_finder_view` derives exactly the three
candidate template identifiers `foo.html`, `foo/index.html`, `foo`, and
its behavior is the sequential probe of that list in that order (head
first). -/
theorem C1_candidates_for_foo :
    candidates "" "/foo" = ["foo.html", "foo/index.html", "foo"] ∧
    ∀ (render : String → Except Exc HttpResponse) (append_slash : Bool),
      generic_template_finder_view render append_slash "" "/foo" =
        (tryCandidates render append_slash "/foo" "/foo/"
            ["foo.html", "foo/index.html", "foo"]).getD
          (Except.error (Exc.http404 ["foo.html", "foo/index.html", "foo"])) := by
  refine ⟨by decide, ?_⟩
  intro render append_slash
  rfl

/-- C6 counterexample: for path `/`, the derived candidate list is
`[".html", "index.html", ""]`, not `["index.html"]` — `index.html` is
not the only candidate derived and tried. -/
theorem C6_counterexample :
    candidates "" "/" = [".html", "index.html", ""] ∧
      candidates "" "/" ≠ ["index.html"] := by
  decide

/-- C6 (amended): for a request with path `/` and empty `base_path`, the
derived candidates are exactly `[".html", "index.html", ""]`, probed in
that order (so `index.html` is the second candidate tried, not the only
one). -/
theorem C6_amended_candidates_for_root :
    candidates "" "/" = [".html", "index.html", ""] ∧
    ∀ (render : String → Except Exc HttpResponse) (append_slash : Bool),
      generic_template_finder_view render append_slash "" "/" =
        (tryCandidates render append_slash "/" "/" [".html", "index.html", ""]).getD
          (Except.error (Exc.http404 [".html", "index.html", ""])) := by
  refine ⟨by decide, ?_⟩
  intro render append_slash
  rfl

/-- C10: for every request path, the legacy finder view in
`middleware.py` and the newer one in `gtf/middleware.py` (with empty
`base_path`) derive the identical list of three candidate template
identifiers, in the same order. -/
theorem C10_legacy_candidates_eq (p : String) :
    legacy_candidates p = candidates "" p := by
  rfl

/-- C2 counterexample: with `APPEND_SLASH` on and path `/foo`, the first
candidate `foo.html` does not render and the match is the second,
`index.html` candidate — yet the view still returns the permanent
redirect to `/foo/`, not the rendered body, because the code's
condition `t.endswith('.html')` also holds for `foo/index.html`. The
claim's "exactly when the matched candidate is the first" is false. -/
theorem C2_counterexample :
    renderOnlyFooIndex "foo.html" = Except.error Exc.templateDoesNotExist ∧
    renderOnlyFooIndex "foo/index.html" = Except.ok { status_code := 200, body := "INDEX" } ∧
    generic_template_finder_view renderOnlyFooIndex true "" "/foo" =
      Except.ok (HttpResponsePermanentRedirect "/foo/") ∧
    HttpResponsePermanentRedirect "/foo/" ≠ { status_code := 200, body := "INDEX" } :=
  ⟨rfl, rfl, rfl, by decide⟩

/-- C2 (amended): when a candidate `t` renders successfully, the view
returns the permanent redirect to the slash-normalized path exactly
when (a) `t` ends in `.html` — true of the first candidate and also of
the `index.html`-suffixed second candidate — (b) the normalized path no
longer ends with the original request path (a slash was appended), and
(c) `APPEND_SLASH` is enabled; in every other successful case the
rendered response itself is returned. In particular a `foo.html` match
for path `/foo` under `APPEND_SLASH` yields the redirect to `/foo/`. -/
theorem C2_amended_redirect_condition :
    (∀ (render : String → Except Exc HttpResponse) (append_slash : Bool)
        (request_path path t : String) (rest : List String) (r : HttpResponse),
        render t = Except.ok r →
        tryCandidates render append_slash request_path path (t :: rest) =
          some (if pyEndswith t ".html" && !(pyEndswith path request_path) && append_slash then
              Except.ok (HttpResponsePermanentRedirect path)
            else Except.ok r)) ∧
    (∀ (render : String → Except Exc HttpResponse) (r : HttpResponse),
        render "foo.html" = Except.ok r →
        generic_template_finder_view render true "" "/foo" =
          Except.ok (HttpResponsePermanentRedirect "/foo/")) := by
  refine ⟨tryCandidates_cons_ok, ?_⟩
  intro render r h
  show (tryCandidates render true "/foo" (normSlash "" "/foo")
      (candidates "" "/foo")).getD _ = _
  have e1 : normSlash "" "/foo" = "/foo/" := by decide
  have e2 : candidates "" "/foo" = ["foo.html", "foo/index.html", "foo"] := by decide
  rw [e1, e2, tryCandidates_cons_ok render true "/foo" "/foo/" "foo.html"
    ["foo/index.html", "foo"] r h, if_pos (by decide)]
  rfl

/-- C2 witness: the amended theorem applied at concrete inputs. -/
theorem C2_amended_witness :
    tryCandidates renderOnlyFooHtml true "/foo" "/foo/" ["foo.html", "foo/index.html", "foo"] =
      some (if pyEndswith "foo.html" ".html" && !(pyEndswith "/foo/" "/foo") && true then
          Except.ok (HttpResponsePermanentRedirect "/foo/")
        else Except.ok { status_code := 200, body := "FOO" }) ∧
    generic_template_finder_view renderOnlyFooHtml true "" "/foo" =
      Except.ok (HttpResponsePermanentRedirect "/foo/") :=
  ⟨C2_amended_redirect_condition.1 renderOnlyFooHtml true "/foo" "/foo/" "foo.html"
      ["foo/index.html", "foo"] { status_code := 200, body := "FOO" } rfl,
    C2_amended_redirect_condition.2 renderOnlyFooHtml { status_code := 200, body := "FOO" } rfl⟩

/-- C5: in the probe loop, `TemplateDoesNotExist` and an `OSError` with
`errno == EISDIR` each skip to the next candidate with identical effect
(both continuations are the loop on the remaining candidates); an
`OSError` with any other errno re-raises; and when every candidate
fails one of those two recoverable ways the view raises `Http404`
carrying the full tuple of attempted candidates. -/
theorem C5_probe_error_handling :
    (∀ (render : String → Except Exc HttpResponse) (append_slash : Bool)
        (request_path path t : String) (rest : List String),
        render t = Except.error Exc.templateDoesNotExist →
        tryCandidates render append_slash request_path path (t :: rest) =
          tryCandidates render append_slash request_path path rest) ∧
    (∀ (render : String → Except Exc HttpResponse) (append_slash : Bool)
        (request_path path t : String) (rest : List String),
        render t = Except.error (Exc.osError EISDIR) →
        tryCandidates render append_slash request_path path (t :: rest) =
          tryCandidates render append_slash request_path path rest) ∧
    (∀ (render : String → Except Exc HttpResponse) (append_slash : Bool)
        (request_path path t : String) (rest : List String) (e : Int),
        render t = Except.error (Exc.osError e) → e ≠ EISDIR →
        tryCandidates render append_slash request_path path (t :: rest) =
          some (Except.error (Exc.osError e))) ∧
    (∀ (render : String → Except Exc HttpResponse) (append_slash : Bool)
        (base_path request_path : String),
        (∀ t ∈ candidates base_path request_path,
            render t = Except.error Exc.templateDoesNotExist ∨
              render t = Except.error (Exc.osError EISDIR)) →
        generic_template_finder_view render append_slash base_path request_path =
          Except.error (Exc.http404 (candidates base_path request_path))) := by
  refine ⟨tryCandidates_cons_tdne, tryCandidates_cons_eisdir, ?_, ?_⟩
  · intro render append_slash request_path path t rest e h hne
    rw [tryCandidates, h]
    simp [hne]
  · intro render append_slash base_path request_path h
    show (tryCandidates render append_slash request_path (normSlash base_path request_path)
        (candidates base_path request_path)).getD _ = _
    rw [tryCandidates_exhaust render append_slash request_path
      (normSlash base_path request_path) (candidates base_path request_path) h]
    rfl

/-- C5 witness: each conjunct of the probe-error theorem applied at
concrete inputs. -/
theorem C5_probe_error_witness :
    tryCandidates renderAllTDNE true "/foo" "/foo/" ["foo.html", "foo/index.html", "foo"] =
      tryCandidates renderAllTDNE true "/foo" "/foo/" ["foo/index.html", "foo"] ∧
    tryCandidates renderAllEISDIR true "/foo" "/foo/" ["foo.html", "foo/index.html", "foo"] =
      tryCandidates renderAllEISDIR true "/foo" "/foo/" ["foo/index.html", "foo"] ∧
    tryCandidates renderAllENOENT true "/foo" "/foo/" ["foo.html", "foo/index.html", "foo"] =
      some (Except.error (Exc.osError 2)) ∧
    generic_template_finder_view renderAllTDNE true "" "/foo" =
      Except.error (Exc.http404 (candidates "" "/foo")) :=
  ⟨C5_probe_error_handling.1 renderAllTDNE true "/foo" "/foo/" "foo.html"
      ["foo/index.html", "foo"] rfl,
    C5_probe_error_handling.2.1 renderAllEISDIR true "/foo" "/foo/" "foo.html"
      ["foo/index.html", "foo"] rfl,
    C5_probe_error_handling.2.2.1 renderAllENOENT true "/foo" "/foo/" "foo.html"
      ["foo/index.html", "foo"] 2 rfl (by decide),
    C5_probe_error_handling.2.2.2 renderAllTDNE true "" "/foo"
      (fun t _ => Or.inl rfl)⟩

/-- C3: when `process_view` ran on the request (a real view handled the
path and set the marker), `process_response` returns the response
unchanged even for a 404; the fallback is consulted exactly for a 404
on a request without the marker. -/
theorem C3_view_found_suppresses_fallback :
    (∀ (render : String → Except Exc HttpResponse) (append_slash : Bool)
        (request : Request) (response : HttpResponse),
        process_response render append_slash (process_view request) response =
          Except.ok response) ∧
    (∀ (render : String → Except Exc HttpResponse) (append_slash : Bool)
        (request : Request) (response : HttpResponse),
        request.view_found = true ∨ response.status_code ≠ 404 →
        process_response render append_slash request response = Except.ok response) ∧
    (∀ (render : String → Except Exc HttpResponse) (append_slash : Bool)
        (request : Request) (response : HttpResponse),
        response.status_code = 404 → request.view_found = false →
        process_response render append_slash request response =
          attempt_fallback render append_slash request response) := by
  refine ⟨?_, ?_, ?_⟩
  · intro render append_slash request response
    simp [process_response, process_view]
  · intro render append_slash request response h
    cases h with
    | inl hv => simp [process_response, hv]
    | inr hs => simp [process_response, hs]
  · intro render append_slash request response hs hv
    simp [process_response, hs, hv]

/-- C3 witness: the marker and status-code conditions discharged at
concrete inputs. -/
theorem C3_witness :
    process_response renderAllTDNE true { path := "/foo", view_found := true } resp404 =
      Except.ok resp404 ∧
    process_response renderAllTDNE true { path := "/foo" } resp404 =
      attempt_fallback renderAllTDNE true { path := "/foo" } resp404 :=
  ⟨C3_view_found_suppresses_fallback.2.1 renderAllTDNE true
      { path := "/foo", view_found := true } resp404 (Or.inl rfl),
    C3_view_found_suppresses_fallback.2.2 renderAllTDNE true
      { path := "/foo" } resp404 rfl rfl⟩

/-- C9: when the fallback inside `process_response` fails — the finder
view exhausts its candidates and raises `Http404`, or a
`UnicodeEncodeError` escapes the fallback rendering — the failure is
swallowed and the original 404 response is returned unchanged. -/
theorem C9_fallback_failure_swallowed :
    ∀ (render : String → Except Exc HttpResponse) (append_slash : Bool)
      (request : Request) (response : HttpResponse),
      response.status_code = 404 → request.view_found = false →
      ((∃ attempted, generic_template_finder_view render append_slash "" request.path =
          Except.error (Exc.http404 attempted)) ∨
        generic_template_finder_view render append_slash "" request.path =
          Except.error Exc.unicodeEncodeError) →
      process_response render append_slash request response = Except.ok response := by
  intro render append_slash request response hs hv hfail
  have hstep : process_response render append_slash request response =
      attempt_fallback render append_slash request response := by
    simp [process_response, hs, hv]
  rw [hstep]
  unfold attempt_fallback
  cases hfail with
  | inl h =>
    obtain ⟨attempted, h⟩ := h
    rw [h]
  | inr h =>
    rw [h]

/-- Serializing a nonempty Python string: step 1 finds no `to_json`;
step 2 iterates the string's characters, which lack `to_json`, so the
comprehension's `AttributeError` is passed over; `json.dumps` then
quotes the string. (The empty string instead iterates to `[]` and
serializes as `"[]"`.) -/
theorem serialize_str_of_ne_empty (m : String) (h : m ≠ "") :
    serialize (PyVal.str m) = jsonQuote m := by
  obtain ⟨data⟩ := m
  cases data with
  | nil => exact absurd rfl h
  | cons c cs => rfl

/-- C4 counterexample: a handler raising `Http404` yields status 404
with body `"null"` — the JSON serialization of `None` — not an empty
body as the claim states. -/
theorem C4_counterexample :
    RestView.dispatch (Except.ok ()) (Except.error RestExc.http404) =
      Except.ok ⟨404, "null", [("Content-Type", "application/json")]⟩ ∧
    "null" ≠ "" :=
  ⟨rfl, by decide⟩

/-- C4 (amended): `RestView.dispatch` invokes `auth` first — an
exception from `auth` is mapped exactly as one from the per-method
handler, which is then never consulted — and maps: `ValidationError` to
409 with the field-error mapping JSON-serialized as body; `Http404` to
404 with body `"null"` (the JSON form of `None`, not an empty body);
`PermissionDenied` to 403 and `ValueError` to 400, each with the JSON
serialization of the error's string form as body (the quoted string,
for a nonempty message); any other exception kind propagates unchanged;
a successful dispatch is returned as-is. -/
theorem C4_amended_dispatch_mapping :
    (∀ (e : RestExc) (h h' : Except RestExc HttpResponse),
        RestView.dispatch (Except.error e) h = RestView.dispatch (Except.error e) h' ∧
        RestView.dispatch (Except.error e) h =
          RestView.dispatch (Except.ok ()) (Except.error e)) ∧
    (∀ r : HttpResponse, RestView.dispatch (Except.ok ()) (Except.ok r) = Except.ok r) ∧
    (∀ md, RestView.dispatch (Except.ok ()) (Except.error (RestExc.validationError md)) =
        Except.ok ⟨409, serialize (messageDictVal md),
          [("Content-Type", "application/json")]⟩) ∧
    (RestView.dispatch (Except.ok ()) (Except.error RestExc.http404) =
        Except.ok ⟨404, "null", [("Content-Type", "application/json")]⟩) ∧
    (∀ m : String, m ≠ "" →
        RestView.dispatch (Except.ok ()) (Except.error (RestExc.permissionDenied m)) =
          Except.ok ⟨403, jsonQuote m, [("Content-Type", "application/json")]⟩) ∧
    (∀ m : String, m ≠ "" →
        RestView.dispatch (Except.ok ()) (Except.error (RestExc.valueError m)) =
          Except.ok ⟨400, jsonQuote m, [("Content-Type", "application/json")]⟩) ∧
    (∀ n, RestView.dispatch (Except.ok ()) (Except.error (RestExc.other n)) =
        Except.error (RestExc.other n)) := by
  refine ⟨?_, fun r => rfl, fun md => rfl, rfl, ?_, ?_, fun n => rfl⟩
  · intro e h h'
    cases e <;> exact ⟨rfl, rfl⟩
  · intro m hm
    show Except.ok (render_to_response (PyVal.str m) 403) = _
    rw [render_to_response, serialize_str_of_ne_empty m hm]
  · intro m hm
    show Except.ok (render_to_response (PyVal.str m) 400) = _
    rw [render_to_response, serialize_str_of_ne_empty m hm]

/-- C4 witness: the amended mapping applied at concrete messages. -/
theorem C4_amended_witness :
    RestView.dispatch (Except.ok ()) (Except.error (RestExc.permissionDenied "no access")) =
      Except.ok ⟨403, jsonQuote "no access", [("Content-Type", "application/json")]⟩ ∧
    RestView.dispatch (Except.ok ()) (Except.error (RestExc.valueError "bad value")) =
      Except.ok ⟨400, jsonQuote "bad value", [("Content-Type", "application/json")]⟩ :=
  ⟨C4_amended_dispatch_mapping.2.2.2.2.1 "no access" (by decide),
    C4_amended_dispatch_mapping.2.2.2.2.2.1 "bad value" (by decide)⟩

/-- C7 counterexample: `RestView` itself defines `options`, so
`hasattr(self, 'options')` always holds and an OPTIONS request to a
view implementing GET and POST answers `Allow: GET,POST,OPTIONS`, not
`GET,POST`; and its body is `"null"` (the JSON form of `None`), not
empty. -/
theorem C7_counterexample :
    RestView.options http_method_names (restViewHasMethod ["get", "post"]) =
      { status_code := 200, body := "null",
        headers := [("Content-Type", "application/json"), ("Allow", "GET,POST,OPTIONS")] } ∧
    "GET,POST,OPTIONS" ≠ "GET,POST" ∧ "null" ≠ "" :=
  ⟨rfl, by decide, by decide⟩

/-- C7 (amended): an OPTIONS request to a `RestView` implementing GET
and POST handlers returns `Allow: GET,POST,OPTIONS` — the upper-cased,
comma-joined HTTP method names the instance implements, which always
include OPTIONS since `RestView` defines that responder itself — with
body `"null"`, the JSON serialization of `None`. -/
theorem C7_amended_options :
    RestView.options http_method_names (restViewHasMethod ["get", "post"]) =
      { status_code := 200, body := "null",
        headers := [("Content-Type", "application/json"), ("Allow", "GET,POST,OPTIONS")] } ∧
    ∀ subclass_methods, restViewHasMethod subclass_methods "options" = true := by
  refine ⟨rfl, ?_⟩
  intro subclass_methods
  simp [restViewHasMethod]

mutual

theorem jsonDumps_replaceDec (v : PyVal) : jsonDumps (replaceDec v) = jsonDumps v := by
  cases v with
  | none => rfl
  | str s => rfl
  | int n => rfl
  | decimal d => rfl
  | withToJson j =>
    show jsonDumps (PyVal.withToJson (replaceDec j)) = _
    rw [jsonDumps, jsonDumps, jsonDumps_replaceDec j]
  | list xs =>
    show jsonDumps (PyVal.list (replaceDecList xs)) = _
    rw [jsonDumps, jsonDumps, jsonDumpsList_replaceDec xs]
  | dict kvs =>
    show jsonDumps (PyVal.dict (replaceDecDict kvs)) = _
    rw [jsonDumps, jsonDumps, jsonDumpsDict_replaceDec kvs]

theorem jsonDumpsList_replaceDec (xs : List PyVal) :
    jsonDumpsList (replaceDecList xs) = jsonDumpsList xs := by
  cases xs with
  | nil => rfl
  | cons x rest =>
    show jsonDumpsList (replaceDec x :: replaceDecList rest) = _
    rw [jsonDumpsList, jsonDumpsList, jsonDumps_replaceDec x, jsonDumpsList_replaceDec rest]

theorem jsonDumpsDict_replaceDec (kvs : List (String × PyVal)) :
    jsonDumpsDict (replaceDecDict kvs) = jsonDumpsDict kvs := by
  cases kvs with
  | nil => rfl
  | cons kv rest =>
    show jsonDumpsDict ((kv.fst, replaceDec kv.snd) :: replaceDecDict rest) = _
    rw [jsonDumpsDict, jsonDumpsDict, jsonDumps_replaceDec kv.snd, jsonDumpsDict_replaceDec rest]

end

/-- C8: `JsonResponseMixin.serialize` renders every `Decimal` — at any
nesting depth — as its decimal string, not a float: replacing each
`Decimal` in the payload by its plain digit string leaves the JSON
output unchanged, and a `Decimal` itself serializes to the quoted digit
string. And `to_json` is honored: a top-level object exposing it is
replaced by its `to_json()` value before dumping, and a sequence whose
elements all expose it is serialized element-wise through `to_json`. -/
theorem C8_decimal_and_to_json :
    (∀ v : PyVal, jsonDumps (replaceDec v) = jsonDumps v) ∧
    (∀ s : String, jsonDumps (PyVal.decimal s) = jsonQuote s ∧
      serialize (PyVal.decimal s) = jsonQuote s) ∧
    (∀ j : PyVal, serialize (PyVal.withToJson j) = jsonDumps (serialize_step2 j)) ∧
    (∀ xs : List PyVal, (∀ x ∈ xs, hasToJson x = true) →
        serialize (PyVal.list xs) = jsonDumps (PyVal.list (xs.map callToJson))) := by
  refine ⟨jsonDumps_replaceDec, fun s => ⟨rfl, rfl⟩, fun j => rfl, ?_⟩
  intro xs h
  show jsonDumps (serialize_step2 (serialize_step1 (PyVal.list xs))) = _
  have h1 : serialize_step1 (PyVal.list xs) = PyVal.list xs := rfl
  have h2 : xs.all hasToJson = true := List.all_eq_true.mpr h
  rw [h1]
  show jsonDumps
      (if xs.all hasToJson then PyVal.list (xs.map callToJson) else PyVal.list xs) = _
  rw [if_pos h2]

/-- C8 witness: a sequence of two objects exposing `to_json` is
serialized through their `to_json` values. -/
theorem C8_witness :
    serialize (PyVal.list [PyVal.withToJson (PyVal.int 1), PyVal.withToJson PyVal.none]) =
      jsonDumps (PyVal.list
        ([PyVal.withToJson (PyVal.int 1), PyVal.withToJson PyVal.none].map callToJson)) :=
  C8_decimal_and_to_json.2.2.2 [PyVal.withToJson (PyVal.int 1), PyVal.withToJson PyVal.none]
    (by intro x hx
        rcases List.mem_cons.mp hx with rfl | hx
        · rfl
        · rcases List.mem_cons.mp hx with rfl | hx
          · rfl
          · exact absurd hx (List.not_mem_nil x))

/-- C9 witness: with a renderer for which no template exists, the
fallback raises `Http404` and the original 404 response comes back
unchanged. -/
theorem C9_witness :
    process_response renderAllTDNE true { path := "/foo" } resp404 = Except.ok resp404 :=
  C9_fallback_failure_swallowed renderAllTDNE true { path := "/foo" } resp404 rfl rfl
    (Or.inl ⟨candidates "" "/foo", rfl⟩)
